import Mathlib

/-!
Shallow embedding of the HyperLink wallet adapter (`src/index.ts`) for
verification of its specification.

The adapter is a browser-side connection state machine mediating between a
host page and an embedded wallet surface (the `HyperLinkEmbed` channel from
`./embed`, an external collaborator whose contract is given by the spec).
Asynchronous JavaScript is embedded by explicit state passing: each `async`
method becomes a pure function from an `AdapterState` (plus scripted outcomes
for the awaited external calls) to a new state, the list of emitted events,
the list of channel calls performed, and the settlement of the returned
promise.  The one suspension point that matters for interleaving — the
`await wallet.init(...)` inside `_connect` — splits `_connect` into two
phases so a `disconnect()` arriving mid-handshake can be interposed.
-/

namespace HyperLink

/-! ## Allowlist guard (`checkIfAllowListed`, src/index.ts lines 166–184)

The function performs one `fetch` to the allowlist endpoint, parses the JSON
body, and calls `failCallback()` unless `response.ok && response.status ===
200 && ancestor`.  There is no `try`/`catch`: a rejected `fetch` or a failed
`response.json()` rejects the returned promise.  (The preceding
`sanitizeUrlForAllowList` normalisation is out of scope here; it does not
affect the round-trip outcome handling.)  The network round-trip outcome is
scripted: -/

/-- Outcome of `await response.json()`: either the parse rejects, or it
yields a body whose `ancestor` field is truthy or falsy. -/
inductive JsonBody where
  | parseErr : JsonBody
  | parsed (ancestorTruthy : Bool) : JsonBody
deriving DecidableEq, Repr

/-- Outcome of `await fetch(configUrl)`: either the network call rejects, or
it resolves with a response carrying `ok`, `status` and a body. -/
inductive FetchResult where
  | netErr : FetchResult
  | resp (ok : Bool) (status : Nat) (body : JsonBody) : FetchResult
deriving DecidableEq, Repr

/-- Observable outcome of one invocation of `checkIfAllowListed`: whether the
returned promise rejects, and how many times `failCallback` was invoked. -/
structure CheckOutcome where
  rejects : Bool
  failCallbackCalls : Nat
deriving DecidableEq, Repr

/-- `checkIfAllowListed` (src/index.ts 166–184).  No `try`/`catch` wraps the
`fetch` or the `json()` parse, so either failure rejects the promise before
`failCallback` is reached; on a parsed body the callback fires exactly when
`response.ok && response.status === 200 && ancestor` is falsy. -/
def checkIfAllowListed (r : FetchResult) : CheckOutcome :=
  match r with
  | .netErr => ⟨true, 0⟩
  | .resp _ _ .parseErr => ⟨true, 0⟩
  | .resp ok status (.parsed anc) =>
      if ok && status == 200 && anc then ⟨false, 0⟩ else ⟨false, 1⟩

/-! ## Environment classification and readiness -/

/-- The environment classification consumed by `readyState`: presence of
`window`/`document`, and the memoised user-agent classifiers
`isMobileAndroid()`, `isMobileiOS()`, `isPhantomBrowser()`.  The regex-based
classification of the ambient user-agent string is ambient input; its
boolean result is what `readyState` consumes. -/
structure EnvClass where
  hasWindow : Bool
  hasDocument : Bool
  isAndroid : Bool
  isiOS : Bool
  isPhantom : Bool
deriving DecidableEq, Repr

/-- `WalletReadyState` from `@solana/wallet-adapter-base`. -/
inductive WalletReadyState where
  | Installed
  | NotDetected
  | Loadable
  | Unsupported
deriving DecidableEq, Repr

/-- `installedToWalletReadyState` (src/index.ts 266–268). -/
def installedToWalletReadyState (installed : Bool) : WalletReadyState :=
  if installed then .Installed else .Loadable

/-- The constructor-time configuration fields that the connection logic
reads (immutable after construction). -/
structure AdapterConfig where
  installedOnDesktop : Bool
  installedOnAndroid : Bool
  installedOnIos : Bool
  forceIframe : Bool
deriving DecidableEq, Repr

/-- The `readyState` getter (src/index.ts 369–383): picks the per-platform
installed flag (Phantom in-app browser forces `false`), then maps it through
`installedToWalletReadyState`, except outside a `window`/`document` context
where it is `Unsupported`. -/
def readyState (cfg : AdapterConfig) (e : EnvClass) : WalletReadyState :=
  let isInstalled :=
    if e.isPhantom then false
    else if e.isAndroid then cfg.installedOnAndroid
    else if e.isiOS then cfg.installedOnIos
    else cfg.installedOnDesktop
  if !e.hasWindow || !e.hasDocument then .Unsupported
  else installedToWalletReadyState isInstalled

/-! ## Adapter state, events, channel calls -/

/-- Error taxonomy: the `Wallet*Error` classes the adapter wraps rejections
into, plus `stringReject` for the bare string rejection of the in-app-browser
branch and `plainErr` for the bare `Error` thrown by `signIn`. -/
inductive ErrKind where
  | notReady
  | config
  | connection
  | notConnected
  | publicKeyErr
  | signTransactionErr
  | signMessageErr
  | signInErr
  | disconnection
  | stringReject
  | plainErr
deriving DecidableEq, Repr

/-- Public keys are embedded by their base58 text; validity of a candidate
string under `new PublicKey(...)` is a parameter `valid` below. -/
abbrev PubKeyB58 := String

/-- Opaque sign-in payload (`SolanaSignInInput`): never inspected by the
adapter, only forwarded. -/
abbrev SiwsInput := String

/-- Opaque sign-in proof (`SolanaSignInOutput`). -/
abbrev SiwsOutput := String

/-- Events emitted on the adapter's event emitter. -/
inductive Event where
  | connect (pk : PubKeyB58)
  | disconnect
  | error (k : ErrKind)
deriving DecidableEq, Repr

/-- Modelled from the spec: the `HyperLinkEmbed` channel object
(`./embed`, not present under src/) as seen by the adapter — the adapter
only reads its `isLoggedIn` flag; `init` resolving with an authenticated
account corresponds to the embed being logged in (spec §4.3: `init`
"resolves once the remote surface has authenticated an account"). -/
structure HyperLinkEmbed where
  isLoggedIn : Bool
deriving DecidableEq, Repr

/-- The mutable fields of `HyperLinkWalletAdapter` that the connection state
machine reads and writes, together with the page-scoped persisted account
(`localStorage["hyperLink_pk_connected"]`) and whether the adapter is
currently subscribed to the channel's `accountChanged` events. -/
structure AdapterState where
  connecting : Bool
  disconnected : Bool
  wallet : Option HyperLinkEmbed
  publicKey : Option PubKeyB58
  storage : Option PubKeyB58
  subscribedAccountChanged : Bool
  isDisallowed : Bool
deriving DecidableEq, Repr

/-- The `connected` getter (src/index.ts 365–367): `!!this._wallet?.isLoggedIn`. -/
def connected (s : AdapterState) : Bool :=
  match s.wallet with
  | some w => w.isLoggedIn
  | none => false

/-- Remote calls issued on the channel, with the arguments that matter for
the spec (which handshake variant was requested and what sign-in payload it
carried). -/
inductive ChannelCall where
  | chInit (directConnect : Bool) (autoConnect : Bool) (siwsInput : Option SiwsInput)
  | chSignTransaction
  | chSignAllTransactions
  | chSignMessage
  | chSendTransaction
  | chSignInDirect (siwsInput : Option SiwsInput)
deriving DecidableEq, Repr

/-! ## disconnect (src/index.ts 574–599)

Synchronously clears `connecting`, sets the `disconnected` flag, and — when a
channel exists — releases the channel reference and `publicKey` and
unsubscribes from `accountChanged` before any teardown runs; a teardown
failure (`cleanUp`/`clearElements`/`removePreviousWindowRef` throwing) is
caught and surfaced as an `error` event, and the `disconnect` event is
emitted at the end in every case.  `teardownFails` scripts whether teardown
throws. -/

/-- `disconnect()` as a state transformer returning the new state and the
events emitted during the call. -/
def disconnect (teardownFails : Bool) (s : AdapterState) :
    AdapterState × List Event :=
  let s1 : AdapterState := { s with connecting := false, disconnected := true }
  match s.wallet with
  | none => (s1, [.disconnect])
  | some _ =>
      let s2 : AdapterState :=
        { s1 with wallet := none, publicKey := none,
                  subscribedAccountChanged := false }
      if teardownFails then (s2, [.error .disconnection, .disconnect])
      else (s2, [.disconnect])

/-! ## `_connect` (src/index.ts 411–559)

`_connect` is split at its single mid-flight suspension point, the
`await wallet.init(...)`.  Phase 1 is the synchronous prefix: the in-app
browser refusal, the `connected || connecting` reentrancy guard, reading the
persisted account, the readiness check, setting `connecting`, constructing
the `HyperLinkEmbed`, and storing the channel reference.  Phase 2 is the
continuation once `init` settles.  External outcomes are scripted by
`ConnectScript` (ambient) and `InitResult` (the handshake settlement). -/

/-- Arguments of `_connect({forceNoDirectConnect, siwsInput, autoConnect})`. -/
structure ConnectArgs where
  forceNoDirectConnect : Bool
  siwsInput : Option SiwsInput
  autoConnect : Bool
deriving DecidableEq, Repr

/-- Scripted outcomes of the external calls `_connect` makes besides the
handshake: whether `isInApp()` holds, whether the `HyperLinkEmbed`
constructor throws, and whether teardown throws inside any internally
triggered `disconnect()`. -/
structure ConnectScript where
  inApp : Bool
  embedCtorFails : Bool
  teardownFails : Bool
deriving DecidableEq, Repr

/-- Data captured by phase 1 and consumed by phase 2: the persisted account
read from storage and the options passed to `wallet.init`. -/
structure PendingInit where
  prevPk : Option PubKeyB58
  initDirectConnect : Bool
  initAutoConnect : Bool
  initSiwsInput : Option SiwsInput
deriving DecidableEq, Repr

/-- How phase 1 ends: immediate rejection (in-app browser), immediate no-op
resolution (reentrancy guard), rejection with a taxonomy error (not ready /
embed construction failed), or suspension at `await wallet.init`. -/
inductive Phase1Out where
  | rejectedInApp
  | noopResolve
  | rejectedErr (k : ErrKind)
  | suspended (p : PendingInit)
deriving DecidableEq, Repr

/-- Settlement of `wallet.init(...)`: rejection (cancel / load failure /
timeout), or resolution with the authenticated account's base58 text and an
optional sign-in proof. -/
inductive InitResult where
  | rejected
  | resolved (pk : PubKeyB58) (siwsOutput : Option SiwsOutput)
deriving DecidableEq, Repr

/-- Settlement of the `_connect` promise: rejection, resolution with
`undefined` (reentrancy no-op, stale-handshake discard, persisted-account
mismatch), or resolution with `{ siwsOutput }`. -/
inductive ConnectOut where
  | rejected (k : ErrKind)
  | resolvedNone
  | resolvedOutput (siws : Option SiwsOutput)
deriving DecidableEq, Repr

/-- Phase 1 of `_connect` (src/index.ts 420–506): everything up to the
`await wallet.init(...)`.  Order is the source's: `isInApp()` refusal (which
itself calls `disconnect()` and rejects with a bare string), then the
`connected || connecting` guard, then the persisted-account read which may
force `forceNoDirectConnect`/`autoConnect`, clearing the `disconnected`
flag, the readiness check (throwing `WalletNotReadyError`), setting
`connecting`, and the embed construction (throwing `WalletConfigError`);
thrown errors reach the method's `catch` (emit `error`, rethrow) and
`finally` (clear `connecting`).  The fresh embed starts not logged in. -/
def connectPhase1 (cfg : AdapterConfig) (e : EnvClass) (sc : ConnectScript)
    (args : ConnectArgs) (s : AdapterState) :
    AdapterState × List Event × Phase1Out :=
  if sc.inApp then
    ((disconnect sc.teardownFails s).1, (disconnect sc.teardownFails s).2,
     .rejectedInApp)
  else if connected s || s.connecting then
    (s, [], .noopResolve)
  else
    let prevPk := s.storage
    let fndc := args.forceNoDirectConnect || prevPk.isSome || cfg.forceIframe
    let ac := args.autoConnect || prevPk.isSome || cfg.forceIframe
    let s1 : AdapterState := { s with disconnected := false }
    if readyState cfg e != .Installed && readyState cfg e != .Loadable then
      ({ s1 with connecting := false }, [.error .notReady], .rejectedErr .notReady)
    else
      let s2 : AdapterState := { s1 with connecting := true }
      if sc.embedCtorFails then
        ({ s2 with connecting := false }, [.error .config], .rejectedErr .config)
      else
        -- this._wallet = wallet  (before init, "to unmount even if user cancels")
        let s3 : AdapterState := { s2 with wallet := some ⟨false⟩ }
        -- this._directConnect is the constant true, so the option passed to
        -- init is `forceNoDirectConnect ? false : true`.
        (s3, [], .suspended ⟨prevPk, !fndc, ac, args.siwsInput⟩)

/-- Phase 2 of `_connect` (src/index.ts 507–558): the continuation after
`wallet.init` settles.  On rejection, or on an unparsable account, it awaits
`disconnect()` and rejects with `WalletConnectionError` (emitting `error`).
On resolution it first reflects the embed's now-logged-in session (when the
channel reference is still held), then: discards the result if the
`disconnected` flag was set mid-flight; disconnects on a persisted-account
mismatch; otherwise subscribes to `accountChanged`, sets and persists the
public key, and emits `connect`.  The `finally` clears `connecting` on every
path.  `valid` decides whether `new PublicKey(pk)` succeeds. -/
def connectPhase2 (valid : PubKeyB58 → Bool) (teardownFails : Bool)
    (p : PendingInit) (r : InitResult) (s : AdapterState) :
    AdapterState × List Event × ConnectOut :=
  match r with
  | .rejected =>
      ({ (disconnect teardownFails s).1 with connecting := false },
       (disconnect teardownFails s).2 ++ [.error .connection],
       .rejected .connection)
  | .resolved pk siws =>
      let s0 : AdapterState :=
        match s.wallet with
        | some _ => { s with wallet := some ⟨true⟩ }
        | none => s
      if !(valid pk) then
        ({ (disconnect teardownFails s0).1 with connecting := false },
         (disconnect teardownFails s0).2 ++ [.error .connection],
         .rejected .connection)
      else if s0.disconnected then
        ({ s0 with connecting := false }, [], .resolvedNone)
      else if p.prevPk.isSome && p.prevPk != some pk then
        ({ (disconnect teardownFails s0).1 with connecting := false },
         (disconnect teardownFails s0).2, .resolvedNone)
      else
        ({ s0 with connecting := false,
                   subscribedAccountChanged := true,
                   publicKey := some pk,
                   storage := some pk },
         [.connect pk], .resolvedOutput siws)

/-- `_connect` run to completion with no interposed call at the suspension
point: phase 1, then — when suspended — the `wallet.init` call and phase 2.
Also returns the channel calls performed (the single `init`, when reached). -/
def connectRun (cfg : AdapterConfig) (e : EnvClass) (sc : ConnectScript)
    (args : ConnectArgs) (valid : PubKeyB58 → Bool) (r : InitResult)
    (s : AdapterState) :
    AdapterState × List Event × List ChannelCall × ConnectOut :=
  match connectPhase1 cfg e sc args s with
  | (s1, evs, .suspended p) =>
      ((connectPhase2 valid sc.teardownFails p r s1).1,
       evs ++ (connectPhase2 valid sc.teardownFails p r s1).2.1,
       [.chInit p.initDirectConnect p.initAutoConnect p.initSiwsInput],
       (connectPhase2 valid sc.teardownFails p r s1).2.2)
  | (s1, evs, .noopResolve) => (s1, evs, [], .resolvedNone)
  | (s1, evs, .rejectedInApp) => (s1, evs, [], .rejected .stringReject)
  | (s1, evs, .rejectedErr k) => (s1, evs, [], .rejected k)

/-! ## Signing operations (src/index.ts 601–686)

Each checks `if (!wallet || !this.connected) throw new
WalletNotConnectedError()` before any channel call; channel rejections are
wrapped (`WalletSignTransactionError` / `WalletSignMessageError`), and the
outer `catch` emits `error` and rethrows.  `sendTransaction` returns the
channel's promise without awaiting it inside the `try`, so only synchronous
throws (the not-connected guard) reach its `catch`.  `chanFails` scripts
whether the channel call rejects; the result is the new state, emitted
events, channel calls made, and `some k` when the promise rejects with
taxonomy kind `k`. -/

/-- `signTransaction` (src/index.ts 601–620). -/
def signTransactionOp (chanFails : Bool) (s : AdapterState) :
    AdapterState × List Event × List ChannelCall × Option ErrKind :=
  match s.wallet with
  | none => (s, [.error .notConnected], [], some .notConnected)
  | some w =>
      if !w.isLoggedIn then (s, [.error .notConnected], [], some .notConnected)
      else if chanFails then
        (s, [.error .signTransactionErr], [.chSignTransaction],
         some .signTransactionErr)
      else (s, [], [.chSignTransaction], none)

/-- `signAllTransactions` (src/index.ts 622–641). -/
def signAllTransactionsOp (chanFails : Bool) (s : AdapterState) :
    AdapterState × List Event × List ChannelCall × Option ErrKind :=
  match s.wallet with
  | none => (s, [.error .notConnected], [], some .notConnected)
  | some w =>
      if !w.isLoggedIn then (s, [.error .notConnected], [], some .notConnected)
      else if chanFails then
        (s, [.error .signTransactionErr], [.chSignAllTransactions],
         some .signTransactionErr)
      else (s, [], [.chSignAllTransactions], none)

/-- `signMessage` (src/index.ts 643–658). -/
def signMessageOp (chanFails : Bool) (s : AdapterState) :
    AdapterState × List Event × List ChannelCall × Option ErrKind :=
  match s.wallet with
  | none => (s, [.error .notConnected], [], some .notConnected)
  | some w =>
      if !w.isLoggedIn then (s, [.error .notConnected], [], some .notConnected)
      else if chanFails then
        (s, [.error .signMessageErr], [.chSignMessage], some .signMessageErr)
      else (s, [], [.chSignMessage], none)

/-- `sendTransaction` (src/index.ts 660–686): the guard throws synchronously
into the `catch` (emit + rethrow); the channel promise is returned without
`await`, so its later rejection bypasses the `catch` (no `error` event on
that path). -/
def sendTransactionOp (chanFails : Bool) (s : AdapterState) :
    AdapterState × List Event × List ChannelCall × Option ErrKind :=
  match s.wallet with
  | none => (s, [.error .notConnected], [], some .notConnected)
  | some w =>
      if !w.isLoggedIn then (s, [.error .notConnected], [], some .notConnected)
      else if chanFails then
        (s, [], [.chSendTransaction], some .stringReject)
      else (s, [], [.chSendTransaction], none)

/-! ## `_accountChanged` (src/index.ts 385–401) -/

/-- The `accountChanged` listener: ignores the notification when no current
`publicKey` is held or the base58 text is unchanged; a string rejected by
`new PublicKey(...)` emits one `WalletPublicKeyError` `error` event and is
discarded; otherwise `publicKey` is replaced and a `connect` event emitted.
Storage is not touched. -/
def accountChangedOp (valid : PubKeyB58 → Bool) (newPublicKeyString : String)
    (s : AdapterState) : AdapterState × List Event :=
  match s.publicKey with
  | none => (s, [])
  | some pk =>
      if pk == newPublicKeyString then (s, [])
      else if !(valid newPublicKeyString) then
        (s, [.error .publicKeyErr])
      else
        ({ s with publicKey := some newPublicKeyString },
         [.connect newPublicKeyString])

/-! ## `signIn` (src/index.ts 688–727) -/

/-- Settlement of the channel's direct `signIn` remote call. -/
inductive ChanSignInReply where
  | ok (o : SiwsOutput)
  | fail
deriving DecidableEq, Repr

/-- Settlement of the adapter's `signIn` promise. -/
inductive SignInRes where
  | ok (o : SiwsOutput)
  | err (k : ErrKind)
deriving DecidableEq, Repr

/-- The tail of `signIn` after the connect-if-needed step: the
not-connected / no-public-key guards, then the direct `wallet.signIn` remote
call, whose rejection is wrapped in `WalletSignInError`; the outer `catch`
emits `error` and rethrows. -/
def signInDirectPart (chanSignIn : ChanSignInReply) (input : Option SiwsInput)
    (s : AdapterState) (evsAcc : List Event) (callsAcc : List ChannelCall) :
    AdapterState × List Event × List ChannelCall × SignInRes :=
  if !connected s || s.wallet == none then
    (s, evsAcc ++ [.error .notConnected], callsAcc, .err .notConnected)
  else if s.publicKey == none then
    (s, evsAcc ++ [.error .notConnected], callsAcc, .err .notConnected)
  else
    match chanSignIn with
    | .ok o => (s, evsAcc, callsAcc ++ [.chSignInDirect input], .ok o)
    | .fail =>
        (s, evsAcc ++ [.error .signInErr],
         callsAcc ++ [.chSignInDirect input], .err .signInErr)

/-- `signIn(input?)` (src/index.ts 688–727): when not connected it runs
`_connect({ siwsInput: input })`; a `_connect` rejection reaches the outer
`catch` (one more `error` event, rethrow).  When the caller supplied a
payload, a missing handshake proof throws a bare `Error` and a present one
is returned directly; with no payload — and always when already connected —
control falls through to the direct channel `signIn` call. -/
def signInOp (cfg : AdapterConfig) (e : EnvClass) (sc : ConnectScript)
    (valid : PubKeyB58 → Bool) (initRes : InitResult)
    (chanSignIn : ChanSignInReply) (input : Option SiwsInput)
    (s : AdapterState) :
    AdapterState × List Event × List ChannelCall × SignInRes :=
  if connected s then
    signInDirectPart chanSignIn input s [] []
  else
    match connectRun cfg e sc ⟨false, input, false⟩ valid initRes s with
    | (s1, evs1, calls1, .rejected k) =>
        (s1, evs1 ++ [.error k], calls1, .err k)
    | (s1, evs1, calls1, .resolvedNone) =>
        if input.isSome then
          (s1, evs1 ++ [.error .plainErr], calls1, .err .plainErr)
        else signInDirectPart chanSignIn input s1 evs1 calls1
    | (s1, evs1, calls1, .resolvedOutput siws) =>
        if input.isSome then
          match siws with
          | some o => (s1, evs1, calls1, .ok o)
          | none => (s1, evs1 ++ [.error .plainErr], calls1, .err .plainErr)
        else signInDirectPart chanSignIn input s1 evs1 calls1

/-! ## Helper lemmas -/

/-- In a browser context (`window` and `document` present) `readyState` is
always `Installed` or `Loadable`, so `_connect`'s readiness refusal never
fires there. -/
theorem readyState_browser_passes (cfg : AdapterConfig) (a i ph : Bool) :
    (readyState cfg ⟨true, true, a, i, ph⟩ != WalletReadyState.Installed &&
     readyState cfg ⟨true, true, a, i, ph⟩ != WalletReadyState.Loadable) = false := by
  rcases cfg with ⟨dk, an, io, fi⟩
  cases dk <;> cases an <;> cases io <;> cases fi <;>
    cases a <;> cases i <;> cases ph <;> rfl

/-! ## Claim theorems -/

/-- C1 (counterexample): the claim says every network-round-trip outcome
other than a truthy-`ancestor` 200 — including a network failure — invokes
the disallow callback exactly once and never rejects.  On the network-failure
outcome `checkIfAllowListed` rejects and invokes the callback zero times. -/
theorem c1_allowlist_counterexample :
    ¬ ((checkIfAllowListed FetchResult.netErr).failCallbackCalls = 1 ∧
       (checkIfAllowListed FetchResult.netErr).rejects = false) := by
  decide

/-- C1 (amended): for every completed round-trip whose body parses, the check
never rejects, and it invokes the disallow callback exactly once unless the
response was ok with HTTP status 200 and a truthy `ancestor` (in which case
the callback is not invoked); however, a network failure or a body-parse
failure rejects the returned promise without invoking the callback. -/
theorem c1_allowlist_amended :
    (∀ ok status anc,
        (checkIfAllowListed (.resp ok status (.parsed anc))).rejects = false) ∧
    (∀ ok status anc,
        ((checkIfAllowListed (.resp ok status (.parsed anc))).failCallbackCalls = 0
          ↔ (ok = true ∧ status = 200 ∧ anc = true))) ∧
    (∀ ok status anc,
        (checkIfAllowListed (.resp ok status (.parsed anc))).failCallbackCalls = 0 ∨
        (checkIfAllowListed (.resp ok status (.parsed anc))).failCallbackCalls = 1) ∧
    (checkIfAllowListed .netErr = ⟨true, 0⟩) ∧
    (∀ ok status, checkIfAllowListed (.resp ok status .parseErr) = ⟨true, 0⟩) := by
  refine ⟨?_, ?_, ?_, rfl, fun ok status => rfl⟩
  · intro ok status anc
    by_cases h : (ok && status == 200 && anc) = true <;>
      simp [checkIfAllowListed, h]
  · intro ok status anc
    simp only [checkIfAllowListed]
    by_cases h : (ok && status == 200 && anc) = true
    · rw [if_pos h]
      simp only [Bool.and_eq_true, beq_iff_eq] at h
      simpa using ⟨h.1.1, h.1.2, h.2⟩
    · rw [if_neg h]
      constructor
      · intro h0
        exact absurd h0 (by decide)
      · rintro ⟨h1, h2, h3⟩
        exact absurd (by simp [h1, h2, h3]) h
  · intro ok status anc
    simp only [checkIfAllowListed]
    by_cases h : (ok && status == 200 && anc) = true
    · rw [if_pos h]
      exact Or.inl rfl
    · rw [if_neg h]
      exact Or.inr rfl

/-- C5: `disconnect()` is idempotent and always ends by emitting `disconnect`;
with no channel it emits exactly `disconnect` and touches nothing else except
the flags; a teardown failure surfaces one `error` event before the
`disconnect` event and still returns normally; and the resulting state —
connecting cleared, channel and public key released — is independent of
whether teardown failed (state is forced before teardown runs). -/
theorem c5_disconnect_idempotent_total :
    (∀ (s : AdapterState) (tf : Bool),
        (disconnect tf s).1.connecting = false ∧
        (disconnect tf s).1.disconnected = true ∧
        (disconnect tf s).1.wallet = none ∧
        (disconnect tf s).2.getLast? = some Event.disconnect) ∧
    (∀ (s : AdapterState) (tf tf2 : Bool),
        (disconnect tf2 (disconnect tf s).1).2 = [Event.disconnect]) ∧
    (∀ (c d sub dis tf : Bool) (pk st : Option PubKeyB58),
        disconnect tf ⟨c, d, none, pk, st, sub, dis⟩ =
          (⟨false, true, none, pk, st, sub, dis⟩, [Event.disconnect])) ∧
    (∀ (c d sub dis : Bool) (w : HyperLinkEmbed) (pk st : Option PubKeyB58),
        disconnect true ⟨c, d, some w, pk, st, sub, dis⟩ =
          (⟨false, true, none, none, st, false, dis⟩,
           [Event.error ErrKind.disconnection, Event.disconnect])) ∧
    (∀ s : AdapterState, (disconnect true s).1 = (disconnect false s).1) := by
  refine ⟨?_, ?_, ?_, ?_, ?_⟩
  · rintro ⟨c, d, w, pk, st, sub, dis⟩ tf
    cases w <;> cases tf <;> simp [disconnect]
  · rintro ⟨c, d, w, pk, st, sub, dis⟩ tf tf2
    cases w <;> cases tf <;> cases tf2 <;> simp [disconnect]
  · intro c d sub dis tf pk st
    cases tf <;> rfl
  · intro c d sub dis w pk st
    rfl
  · rintro ⟨c, d, w, pk, st, sub, dis⟩
    cases w <;> simp [disconnect]

/-- C7: an `accountChanged` notification whose string is rejected by the
public-key parser, arriving while a (valid) current `publicKey` is held,
leaves the whole adapter state unchanged and emits exactly one public-key
`error` event — in particular no `connect` event. -/
theorem c7_accountChanged_invalid_discarded
    (valid : PubKeyB58 → Bool) (s : AdapterState) (pk0 newStr : String)
    (hpk : s.publicKey = some pk0) (hv : valid pk0 = true)
    (hn : valid newStr = false) :
    accountChangedOp valid newStr s = (s, [Event.error ErrKind.publicKeyErr]) := by
  have hne : (pk0 == newStr) = false := by
    cases h : pk0 == newStr
    · rfl
    · rw [beq_iff_eq] at h
      rw [h, hn] at hv
      exact absurd hv (by simp)
  simp [accountChangedOp, hpk, hne, hn]

/-- C7 witness: concrete invalid notification. -/
theorem c7_accountChanged_invalid_discarded_witness :
    accountChangedOp (fun x => x == "A") "B"
      ⟨false, false, some ⟨true⟩, some "A", some "A", true, false⟩ =
      (⟨false, false, some ⟨true⟩, some "A", some "A", true, false⟩,
       [Event.error ErrKind.publicKeyErr]) :=
  c7_accountChanged_invalid_discarded (fun x => x == "A") _ "A" "B" rfl rfl rfl

/-- C3: `_connect` is reentrancy-guarded: outside an in-app browser, any
`connect()`/`autoConnect()` issued while a connect is pending (`connecting`
set) or while connected resolves immediately as a no-op — identical state, no
events, no channel call, hence no second handshake; and whenever phase 1
actually suspends at the handshake it has already set `connecting`, so the
guard is raised synchronously before the first suspension. -/
theorem c3_connect_reentrancy_guard :
    (∀ (cfg : AdapterConfig) (e : EnvClass) (cf tf : Bool) (args : ConnectArgs)
        (valid : PubKeyB58 → Bool) (r : InitResult) (s : AdapterState),
        (connected s || s.connecting) = true →
        connectRun cfg e ⟨false, cf, tf⟩ args valid r s =
          (s, [], [], ConnectOut.resolvedNone)) ∧
    (∀ (cfg : AdapterConfig) (e : EnvClass) (sc : ConnectScript)
        (args : ConnectArgs) (s s1 : AdapterState) (evs : List Event)
        (p : PendingInit),
        connectPhase1 cfg e sc args s = (s1, evs, Phase1Out.suspended p) →
        s1.connecting = true) := by
  constructor
  · intro cfg e cf tf args valid r s h
    simp [connectRun, connectPhase1, h]
  · intro cfg e sc args s s1 evs p h
    simp only [connectPhase1] at h
    split at h
    · simp at h
    · split at h
      · simp at h
      · split at h
        · simp at h
        · split at h
          · simp at h
          · simp only [Prod.mk.injEq] at h
            rw [← h.1]

/-- C3 witness: a second `connect()` while one is pending is a no-op. -/
theorem c3_connect_reentrancy_guard_witness :
    connectRun ⟨true, false, true, false⟩ ⟨true, true, false, false, false⟩
      ⟨false, false, false⟩ ⟨false, none, false⟩ (fun _ => true)
      InitResult.rejected ⟨true, false, none, none, none, false, false⟩ =
      (⟨true, false, none, none, none, false, false⟩, [], [],
       ConnectOut.resolvedNone) :=
  c3_connect_reentrancy_guard.1 _ _ false false _ _ _ _ rfl

/-- C4: a `disconnect()` interposed while the handshake is pending (the
channel reference was already stored by phase 1) leaves a state whose
`disconnected` flag is set and whose channel/public key are released; when
the handshake then resolves successfully, phase 2 discards the result: no
`publicKey` is set, storage is not written, no `accountChanged` subscription
is made, no event is emitted, and the promise resolves `undefined` with the
disconnected state preserved. -/
theorem c4_disconnect_discards_pending_handshake
    (c d sub dis tf tf2 : Bool) (w : HyperLinkEmbed)
    (pk1 st : Option PubKeyB58) (p : PendingInit) (pk : PubKeyB58)
    (siws : Option SiwsOutput) (valid : PubKeyB58 → Bool)
    (hv : valid pk = true) :
    (disconnect tf ⟨c, d, some w, pk1, st, sub, dis⟩).1 =
      ⟨false, true, none, none, st, false, dis⟩ ∧
    connectPhase2 valid tf2 p (.resolved pk siws)
        (disconnect tf ⟨c, d, some w, pk1, st, sub, dis⟩).1 =
      (⟨false, true, none, none, st, false, dis⟩, [], ConnectOut.resolvedNone) := by
  have hsd : (disconnect tf ⟨c, d, some w, pk1, st, sub, dis⟩).1 =
      ⟨false, true, none, none, st, false, dis⟩ := by
    cases tf <;> rfl
  refine ⟨hsd, ?_⟩
  rw [hsd]
  simp [connectPhase2, hv]

/-- C4 witness: concrete cancelled handshake. -/
theorem c4_disconnect_discards_pending_handshake_witness :
    connectPhase2 (fun _ => true) false ⟨none, true, false, none⟩
        (.resolved "PKB" none)
        (disconnect false ⟨true, false, some ⟨false⟩, none, none, false, false⟩).1 =
      (⟨false, true, none, none, none, false, false⟩, [],
       ConnectOut.resolvedNone) :=
  (c4_disconnect_discards_pending_handshake true false false false false false
    ⟨false⟩ none none ⟨none, true, false, none⟩ "PKB" none (fun _ => true)
    rfl).2

/-- C6: every signing/sending operation invoked without a live, logged-in
channel (`connected = false`, which covers both a missing channel and a
channel that is not logged in) emits a not-connected `error` event, rejects
with the not-connected error, and performs no channel call. -/
theorem c6_sign_ops_require_connection
    (s : AdapterState) (cf : Bool) (h : connected s = false) :
    signTransactionOp cf s =
      (s, [Event.error ErrKind.notConnected], [], some ErrKind.notConnected) ∧
    signAllTransactionsOp cf s =
      (s, [Event.error ErrKind.notConnected], [], some ErrKind.notConnected) ∧
    signMessageOp cf s =
      (s, [Event.error ErrKind.notConnected], [], some ErrKind.notConnected) ∧
    sendTransactionOp cf s =
      (s, [Event.error ErrKind.notConnected], [], some ErrKind.notConnected) := by
  rcases s with ⟨c, d, w, pk, st, sub, dis⟩
  cases w with
  | none => exact ⟨rfl, rfl, rfl, rfl⟩
  | some emb =>
      simp only [connected] at h
      refine ⟨?_, ?_, ?_, ?_⟩ <;>
        simp [signTransactionOp, signAllTransactionsOp, signMessageOp,
              sendTransactionOp, h]

/-- C6 witness: signing with a channel present but not logged in. -/
theorem c6_sign_ops_require_connection_witness :
    signMessageOp false ⟨false, false, some ⟨false⟩, none, none, false, false⟩ =
      (⟨false, false, some ⟨false⟩, none, none, false, false⟩,
       [Event.error ErrKind.notConnected], [], some ErrKind.notConnected) :=
  (c6_sign_ops_require_connection
    ⟨false, false, some ⟨false⟩, none, none, false, false⟩ false rfl).2.2.1

/-- C9: `readyState` is a pure function of the environment classification and
the per-platform installed flags: without `window` or `document` it is
`Unsupported`; in a browser each platform's configured flag maps through
`installedToWalletReadyState` (`true ↦ Installed`, `false ↦ Loadable`); an
Android environment with `installedOnAndroid = false` and
`installedOnIos = true` yields `Loadable`; and the Phantom in-app wallet
browser always yields `Loadable`. -/
theorem c9_readyState_pure :
    (∀ (cfg : AdapterConfig) (a i ph hd : Bool),
        readyState cfg ⟨false, hd, a, i, ph⟩ = WalletReadyState.Unsupported) ∧
    (∀ (cfg : AdapterConfig) (a i ph hw : Bool),
        readyState cfg ⟨hw, false, a, i, ph⟩ = WalletReadyState.Unsupported) ∧
    (∀ (cfg : AdapterConfig) (i : Bool),
        readyState cfg ⟨true, true, true, i, false⟩ =
          installedToWalletReadyState cfg.installedOnAndroid) ∧
    (∀ cfg : AdapterConfig,
        readyState cfg ⟨true, true, false, true, false⟩ =
          installedToWalletReadyState cfg.installedOnIos) ∧
    (∀ cfg : AdapterConfig,
        readyState cfg ⟨true, true, false, false, false⟩ =
          installedToWalletReadyState cfg.installedOnDesktop) ∧
    (∀ (cfg : AdapterConfig) (a i : Bool),
        readyState cfg ⟨true, true, a, i, true⟩ = WalletReadyState.Loadable) ∧
    (∀ (dk fi i : Bool),
        readyState ⟨dk, false, true, fi⟩ ⟨true, true, true, i, false⟩ =
          WalletReadyState.Loadable) ∧
    (∀ b : Bool,
        (installedToWalletReadyState b = WalletReadyState.Installed ↔ b = true) ∧
        (installedToWalletReadyState b = WalletReadyState.Loadable ↔ b = false)) := by
  refine ⟨?_, ?_, ?_, ?_, ?_, ?_, ?_, ?_⟩
  · rintro ⟨dk, an, io, fi⟩ a i ph hd
    cases hd <;> rfl
  · rintro ⟨dk, an, io, fi⟩ a i ph hw
    cases hw <;> rfl
  · rintro ⟨dk, an, io, fi⟩ i
    rfl
  · rintro ⟨dk, an, io, fi⟩
    rfl
  · rintro ⟨dk, an, io, fi⟩
    rfl
  · rintro ⟨dk, an, io, fi⟩ a i
    cases a <;> cases i <;> rfl
  · intro dk fi i
    rfl
  · intro b
    cases b <;> simp [installedToWalletReadyState]

/-- C2: when a persisted last-connected account exists and the handshake
resolves with a different (parseable) address, the adapter disconnects —
final state has `publicKey` null, no channel, `disconnected` set,
`connecting` cleared, `connected` false — the promise resolves `undefined`,
and no `connect` event is emitted for the new account.  (The persisted
account itself read from storage forces the handshake into non-direct
auto-connect mode, visible in the single `init` call.) -/
theorem c2_persisted_account_mismatch_disconnects
    (d0 sub0 dis0 a i ph tf : Bool) (pk0 : Option PubKeyB58)
    (cfg : AdapterConfig) (args : ConnectArgs) (valid : PubKeyB58 → Bool)
    (addrA addrB : PubKeyB58) (siws : Option SiwsOutput)
    (hne : addrA ≠ addrB) (hv : valid addrB = true) :
    connectRun cfg ⟨true, true, a, i, ph⟩ ⟨false, false, tf⟩ args valid
        (.resolved addrB siws)
        ⟨false, d0, none, pk0, some addrA, sub0, dis0⟩ =
      (⟨false, true, none, none, some addrA, false, dis0⟩,
       (if tf then [Event.error ErrKind.disconnection, Event.disconnect]
        else [Event.disconnect]),
       [ChannelCall.chInit false true args.siwsInput],
       ConnectOut.resolvedNone) ∧
    (∀ x, Event.connect x ∉
        (if tf then [Event.error ErrKind.disconnection, Event.disconnect]
         else [Event.disconnect])) := by
  constructor
  · cases tf <;>
      simp [connectRun, connectPhase1, connectPhase2, disconnect, connected,
            readyState_browser_passes, hv, hne]
  · intro x
    cases tf <;> simp

/-- C2 witness: persisted "A", handshake returns "B". -/
theorem c2_persisted_account_mismatch_disconnects_witness :
    connectRun ⟨true, false, true, false⟩ ⟨true, true, false, false, false⟩
        ⟨false, false, false⟩ ⟨false, none, false⟩ (fun _ => true)
        (.resolved "B" none)
        ⟨false, false, none, none, some "A", false, false⟩ =
      (⟨false, true, none, none, some "A", false, false⟩,
       [Event.disconnect], [ChannelCall.chInit false true none],
       ConnectOut.resolvedNone) :=
  (c2_persisted_account_mismatch_disconnects false false false false false
    false false none ⟨true, false, true, false⟩ ⟨false, none, false⟩
    (fun _ => true) "A" "B" none (by decide) rfl).1

/-- C8: `signIn`'s dual path.  Not connected with a payload: exactly one
channel call is made — the handshake `init` carrying the payload — and the
proof the handshake returned is the result; when the handshake produced no
proof, `signIn` rejects (a bare error, after the `connect` completed).
Already connected: the only channel call is the direct `signIn` remote call,
whose proof is returned, with no handshake. -/
theorem c8_signIn_dual_path :
    (∀ (dk an io fi a i ph tf d0 sub0 dis0 : Bool) (pk0 : Option PubKeyB58)
        (valid : PubKeyB58 → Bool) (payload pk o : String)
        (chanR : ChanSignInReply),
        valid pk = true →
        signInOp ⟨dk, an, io, fi⟩ ⟨true, true, a, i, ph⟩ ⟨false, false, tf⟩
            valid (.resolved pk (some o)) chanR (some payload)
            ⟨false, d0, none, pk0, none, sub0, dis0⟩ =
          (⟨false, false, some ⟨true⟩, some pk, some pk, true, dis0⟩,
           [Event.connect pk],
           [ChannelCall.chInit (!fi) fi (some payload)],
           SignInRes.ok o)) ∧
    (∀ (dk an io fi a i ph tf d0 sub0 dis0 : Bool) (pk0 : Option PubKeyB58)
        (valid : PubKeyB58 → Bool) (payload pk : String)
        (chanR : ChanSignInReply),
        valid pk = true →
        signInOp ⟨dk, an, io, fi⟩ ⟨true, true, a, i, ph⟩ ⟨false, false, tf⟩
            valid (.resolved pk none) chanR (some payload)
            ⟨false, d0, none, pk0, none, sub0, dis0⟩ =
          (⟨false, false, some ⟨true⟩, some pk, some pk, true, dis0⟩,
           [Event.connect pk, Event.error ErrKind.plainErr],
           [ChannelCall.chInit (!fi) fi (some payload)],
           SignInRes.err ErrKind.plainErr)) ∧
    (∀ (cfg : AdapterConfig) (e : EnvClass) (sc : ConnectScript)
        (valid : PubKeyB58 → Bool) (initRes : InitResult)
        (input : Option SiwsInput) (o q : String) (c0 d0 sub dis : Bool)
        (st : Option PubKeyB58),
        signInOp cfg e sc valid initRes (.ok o) input
            ⟨c0, d0, some ⟨true⟩, some q, st, sub, dis⟩ =
          (⟨c0, d0, some ⟨true⟩, some q, st, sub, dis⟩, [],
           [ChannelCall.chSignInDirect input], SignInRes.ok o)) := by
  refine ⟨?_, ?_, ?_⟩
  · intro dk an io fi a i ph tf d0 sub0 dis0 pk0 valid payload pk o chanR hv
    cases fi <;>
      simp [signInOp, connectRun, connectPhase1, connectPhase2, connected,
            readyState_browser_passes, hv]
  · intro dk an io fi a i ph tf d0 sub0 dis0 pk0 valid payload pk chanR hv
    cases fi <;>
      simp [signInOp, connectRun, connectPhase1, connectPhase2, connected,
            readyState_browser_passes, hv]
  · intro cfg e sc valid initRes input o q c0 d0 sub dis st
    simp [signInOp, signInDirectPart, connected]

/-- C8 witness: disconnected sign-in with payload returning the handshake
proof. -/
theorem c8_signIn_dual_path_witness :
    signInOp ⟨true, false, true, false⟩ ⟨true, true, false, false, false⟩
        ⟨false, false, false⟩ (fun _ => true)
        (.resolved "PK" (some "PROOF")) .fail (some "PAYLOAD")
        ⟨false, false, none, none, none, false, false⟩ =
      (⟨false, false, some ⟨true⟩, some "PK", some "PK", true, false⟩,
       [Event.connect "PK"],
       [ChannelCall.chInit true false (some "PAYLOAD")],
       SignInRes.ok "PROOF") :=
  c8_signIn_dual_path.1 true false true false false false false false false
    false false none (fun _ => true) "PAYLOAD" "PK" "PROOF" .fail rfl

/-- C10: behavior of a valid-address `accountChanged` notification: with no
current `publicKey`, or with the unchanged base58 address, nothing happens
(no state change, no event); with a different address accepted by the parser,
`publicKey` is replaced and a single `connect` event carrying the new key is
emitted — there is no dedicated account-changed event, and persisted storage
is untouched. -/
theorem c10_accountChanged_valid :
    (∀ (valid : PubKeyB58 → Bool) (ns : String) (c d sub dis : Bool)
        (w : Option HyperLinkEmbed) (st : Option PubKeyB58),
        accountChangedOp valid ns ⟨c, d, w, none, st, sub, dis⟩ =
          (⟨c, d, w, none, st, sub, dis⟩, [])) ∧
    (∀ (valid : PubKeyB58 → Bool) (ns : String) (s : AdapterState),
        s.publicKey = some ns → accountChangedOp valid ns s = (s, [])) ∧
    (∀ (valid : PubKeyB58 → Bool) (ns pk0 : String) (s : AdapterState),
        s.publicKey = some pk0 → pk0 ≠ ns → valid ns = true →
        accountChangedOp valid ns s =
          ({ s with publicKey := some ns }, [Event.connect ns]) ∧
        ({ s with publicKey := some ns } : AdapterState).storage = s.storage ∧
        ({ s with publicKey := some ns } : AdapterState).wallet = s.wallet) := by
  refine ⟨?_, ?_, ?_⟩
  · intro valid ns c d sub dis w st
    rfl
  · intro valid ns s hpk
    simp [accountChangedOp, hpk]
  · intro valid ns pk0 s hpk hne hv
    have hbe : (pk0 == ns) = false := by
      cases h : pk0 == ns
      · rfl
      · exact absurd (beq_iff_eq.mp h) hne
    exact ⟨by simp [accountChangedOp, hpk, hbe, hv], rfl, rfl⟩

/-- C10 witness: concrete account switch to a parseable new address. -/
theorem c10_accountChanged_valid_witness :
    accountChangedOp (fun _ => true) "B"
      ⟨false, false, some ⟨true⟩, some "A", some "A", true, false⟩ =
      (⟨false, false, some ⟨true⟩, some "B", some "A", true, false⟩,
       [Event.connect "B"]) :=
  (c10_accountChanged_valid.2.2 (fun _ => true) "B" "A"
    ⟨false, false, some ⟨true⟩, some "A", some "A", true, false⟩
    rfl (by decide) rfl).1

end HyperLink
